import Mathlib

/-!
# Verification of the basketball-reference scraper library

A shallow embedding of `scripts/bball_ref_scraper_lib.py` together with
theorems about its extraction behaviour.  HTML documents are modelled as the
fragments of structure the library actually queries (score box, per-team
basic statistic tables, anchor lists); Python string and number primitives
are modelled by structurally recursive functions on character lists so that
every definition evaluates inside the kernel.
-/

/-! ## Python string and number primitives -/

/-- Check that the first list is a prefix of the second, by characters. -/
def prefixCheck : List Char → List Char → Bool
  | [], _ => true
  | _ :: _, [] => false
  | a :: as, b :: bs => a == b && prefixCheck as bs

/-- Model of Python `s.startswith(pre)`. -/
def strStarts (s pre : String) : Bool := prefixCheck pre.toList s.toList

/-- Model of Python `s.endswith(suf)`. -/
def strEnds (s suf : String) : Bool := prefixCheck suf.toList.reverse s.toList.reverse

/-- Check whether `needle` occurs as a contiguous substring of `hay`. -/
def hasSubChars (needle : List Char) : List Char → Bool
  | [] => needle.isEmpty
  | c :: tl => prefixCheck needle (c :: tl) || hasSubChars needle tl

/-- Model of Python `needle in hay` on strings. -/
def strHasSub (hay needle : String) : Bool := hasSubChars needle.toList hay.toList

/-- Model of Python `str.strip()`: drop leading and trailing whitespace. -/
def pyStrip (l : List Char) : List Char :=
  ((l.dropWhile Char.isWhitespace).reverse.dropWhile Char.isWhitespace).reverse

/-- String-level wrapper of `pyStrip`. -/
def pyStripS (s : String) : String := String.mk (pyStrip s.toList)

/-- Accumulator-based splitter for Python `str.split()` with no argument:
split on whitespace runs, discarding empty pieces. -/
def pyWordsAux : List Char → List Char → List String
  | [], acc => if acc.isEmpty then [] else [String.mk acc.reverse]
  | c :: cs, acc =>
    if c.isWhitespace then
      if acc.isEmpty then pyWordsAux cs [] else String.mk acc.reverse :: pyWordsAux cs []
    else pyWordsAux cs (c :: acc)

/-- Model of Python `s.split()` (whitespace split, empties removed). -/
def pyWords (l : List Char) : List String := pyWordsAux l []

/-- Accumulator-based splitter for Python `str.split(sep)` with a one-character
separator: empties are kept. -/
def splitCharAux (sep : Char) : List Char → List Char → List String
  | [], acc => [String.mk acc.reverse]
  | c :: cs, acc =>
    if c == sep then String.mk acc.reverse :: splitCharAux sep cs []
    else splitCharAux sep cs (c :: acc)

/-- Model of Python `s.split(sep)` for a one-character separator. -/
def splitChar (sep : Char) (l : List Char) : List String := splitCharAux sep l []

/-- Split at the first occurrence of `sep`, returning the pieces before and
after it, or `none` when `sep` does not occur.  Models the combination of
Python `sep in s` with `s.split(sep, 1)`. -/
def splitFirstChar (sep : Char) : List Char → Option (List Char × List Char)
  | [] => none
  | c :: cs =>
    if c == sep then some ([], cs)
    else (splitFirstChar sep cs).map (fun p => (c :: p.1, p.2))

/-- Numeric value of a list of decimal digit characters. -/
def digitsVal (l : List Char) : Nat := l.foldl (fun acc c => 10 * acc + (c.toNat - 48)) 0

/-- A nonempty all-digit character list. -/
def allDigits (l : List Char) : Bool := !l.isEmpty && l.all Char.isDigit

/-- Model of Python `s.isdigit()` (restricted to ASCII digits). -/
def pyIsDigit (s : String) : Bool := allDigits s.toList

/-- Model of Python `int(s)` on optionally signed decimal strings, returning
`none` where Python raises `ValueError`.  Surrounding whitespace is stripped
as Python does; digit-group underscores are not modelled. -/
def pyIntList (l : List Char) : Option Int :=
  match pyStrip l with
  | '-' :: rest => if allDigits rest then some (-(digitsVal rest : Int)) else none
  | '+' :: rest => if allDigits rest then some ((digitsVal rest : Int)) else none
  | t => if allDigits t then some ((digitsVal t : Int)) else none

/-- String-level wrapper of `pyIntList`. -/
def pyInt (s : String) : Option Int := pyIntList s.toList

/-- Model of Python `float(s)` on optionally signed finite decimal literals
(`"24"`, `".500"`, `"1."`), returning the exact rational value of the
literal, and `none` where Python raises `ValueError`.  The rounding to a
binary double is not modelled, nor are exponents, `inf`/`nan` and
underscores; no claim depends on them. -/
def pyFloatList (l : List Char) : Option Rat :=
  let t := pyStrip l
  let signed : Int × List Char :=
    match t with
    | '-' :: rest => (-1, rest)
    | '+' :: rest => (1, rest)
    | _ => (1, t)
  let sign := signed.1
  let body := signed.2
  match splitFirstChar '.' body with
  | none =>
    if allDigits body then some (mkRat (sign * (digitsVal body : Int)) 1) else none
  | some (ip, fp) =>
    if !(ip.isEmpty && fp.isEmpty) && ip.all Char.isDigit && fp.all Char.isDigit then
      some (mkRat (sign * ((digitsVal ip * 10 ^ fp.length + digitsVal fp : Nat) : Int))
        (10 ^ fp.length))
    else none

/-- String-level wrapper of `pyFloatList`. -/
def pyFloat (s : String) : Option Rat := pyFloatList s.toList

/-- Model of Python `s.lower()` (ASCII case folding). -/
def pyLower (s : String) : String := String.mk (s.toList.map Char.toLower)

/-! ## Award parsing helpers

Embeddings of `get_month_numeric`, `get_award_year` and
`parse_week_date_range` from `bball_ref_scraper_lib.py`.  The
`*_for_log` parameters of the source, used only for diagnostics, are
dropped; every logged-and-return-`None` path becomes a `none` result. -/

/-- The `_MONTH_NAME_TO_NUMERIC` dictionary of the source, as an association
list (the dotted keys are unreachable after normalization, as in the source,
but are kept to mirror it). -/
def _MONTH_NAME_TO_NUMERIC : List (String × Nat) :=
  [("jan", 1), ("january", 1), ("jan.", 1),
   ("feb", 2), ("february", 2), ("feb.", 2),
   ("mar", 3), ("march", 3), ("mar.", 3),
   ("apr", 4), ("april", 4), ("apr.", 4),
   ("may", 5), ("may.", 5),
   ("jun", 6), ("june", 6), ("jun.", 6),
   ("jul", 7), ("july", 7), ("jul.", 7),
   ("aug", 8), ("august", 8), ("aug.", 8),
   ("sep", 9), ("september", 9), ("sep.", 9),
   ("oct", 10), ("october", 10), ("oct.", 10),
   ("nov", 11), ("november", 11), ("nov.", 11),
   ("dec", 12), ("december", 12), ("dec.", 12),
   ("oct/nov", 11)]

/-- Model of Python `dict.get(key, None)` over an association list. -/
def dictGet (d : List (String × Nat)) (k : String) : Option Nat :=
  (d.find? (fun p => p.1 == k)).map (fun p => p.2)

/-- The normalization `month_str.lower().strip().replace(".", "")` applied by
`get_month_numeric`. -/
def normalizeMonth (s : String) : String :=
  String.mk ((pyStrip ((pyLower s).toList)).filter (fun c => c != '.'))

/-- Embedding of `get_month_numeric` (source lines 224-233): convert a month
string to its numeric month, or `none` when falsy or unrecognized. -/
def get_month_numeric (month_str : Option String) : Option Nat :=
  match month_str with
  | none => none
  | some s => if s = "" then none else dictGet _MONTH_NAME_TO_NUMERIC (normalizeMonth s)

/-- Embedding of `get_award_year` (source lines 235-267): resolve the
calendar year of an award from the season label and numeric month. -/
def get_award_year (season_str : Option String) (month_numeric : Option Int) : Option Int :=
  match season_str, month_numeric with
  | none, _ => none
  | _, none => none
  | some s, some m =>
    if s = "" then none
    else
      match splitChar '-' s.toList with
      | [a, b] =>
        if pyIsDigit a && pyIsDigit b then
          match pyInt a with
          | none => none
          | some start_year_season =>
            if 1 ≤ m ∧ m ≤ 12 then
              if 8 ≤ m then some start_year_season else some (start_year_season + 1)
            else none
        else none
      | _ => none

/-- Leap-year test of the proleptic Gregorian calendar used by Python
`datetime`. -/
def isLeapYear (y : Int) : Bool :=
  (y % 4 == 0) && (!(y % 100 == 0) || (y % 400 == 0))

/-- Number of days of month `m` (1-12) of year `y`, as checked by the
`datetime` constructor. -/
def daysInMonth (y : Int) (m : Nat) : Nat :=
  match m with
  | 2 => if isLeapYear y then 29 else 28
  | 4 => 30
  | 6 => 30
  | 9 => 30
  | 11 => 30
  | _ => 31

/-- Validity condition enforced by `datetime(year, month, day)`: year within
`MINYEAR..MAXYEAR`, month within 1-12, day within the month. -/
def dateOk (y : Int) (m : Nat) (d : Int) : Prop :=
  1 ≤ y ∧ y ≤ 9999 ∧ 1 ≤ m ∧ m ≤ 12 ∧ 1 ≤ d ∧ d ≤ (daysInMonth y m : Int)

instance (y : Int) (m : Nat) (d : Int) : Decidable (dateOk y m d) := by
  unfold dateOk
  infer_instance

/-- Decimal digits of `n` left-padded with zeros to width `w`. -/
def padChars (w n : Nat) : List Char :=
  let ds := Nat.toDigits 10 n
  List.replicate (w - ds.length) '0' ++ ds

/-- Model of `datetime.strftime("%Y-%m-%d")` for an already-validated date. -/
def fmtDate (y : Int) (m : Nat) (d : Int) : String :=
  String.mk (padChars 4 y.toNat ++ '-' :: (padChars 2 m ++ '-' :: padChars 2 d.toNat))

/-- Construct both ISO dates of a parsed week, or the absent pair when either
`datetime` construction would raise `ValueError`. -/
def mkWeekDates (ys : Int) (sm : Nat) (sd : Int) (ye : Int) (em : Nat) (ed : Int) :
    Option String × Option String :=
  if dateOk ys sm sd ∧ dateOk ye em ed then
    (some (fmtDate ys sm sd), some (fmtDate ye em ed))
  else (none, none)

/-- End-year rule of the month-crossing branch (source lines 319-321): the
end year is the start year plus one exactly when the end month is numerically
smaller than the start month. -/
def crossEndYear (ys : Int) (sm em : Nat) : Int :=
  if em < sm then ys + 1 else ys

/-- Tokens of the week string before the hyphen rejoin: strip periods, split
on whitespace (source lines 284-285). -/
def weekPartsRaw (ws : String) : List String :=
  pyWords (ws.toList.filter (fun c => c != '.'))

/-- Rejoin of the four-token form `["Month", "D1", "-", "D2"]` into
`["Month", "D1-D2"]` (source lines 289-290). -/
def rejoinHyphen : List String → List String
  | [a, b, c, d] => if c = "-" then [a, b ++ "-" ++ d] else [a, b, c, d]
  | ps => ps

/-- Tokens actually pattern-matched by `parse_week_date_range`. -/
def weekTokens (ws : String) : List String := rejoinHyphen (weekPartsRaw ws)

/-- Core of `parse_week_date_range` once the month token, the day-range token
and the optional third token are isolated (source lines 296-339). -/
def weekCore (y : Int) (mn dr : String) (third : Option String) :
    Option String × Option String :=
  match get_month_numeric (some mn) with
  | none => (none, none)
  | some sm =>
    let ys := if 8 ≤ sm then y else y + 1
    match splitFirstChar '-' dr.toList with
    | some (sdl, restl) =>
      (match pyIntList sdl with
       | none => (none, none)
       | some sd =>
         match get_month_numeric (some (String.mk restl)) with
         | some em =>
           (match third with
            | none => (none, none)
            | some t3 =>
              match pyInt t3 with
              | none => (none, none)
              | some ed => mkWeekDates ys sm sd (crossEndYear ys sm em) em ed)
         | none =>
           match pyIntList restl with
           | none => (none, none)
           | some ed => mkWeekDates ys sm sd ys sm ed)
    | none =>
      if pyIsDigit dr then
        match pyInt dr with
        | some sd => mkWeekDates ys sm sd ys sm sd
        | none => (none, none)
      else (none, none)

/-- Embedding of `parse_week_date_range` (source lines 269-348): parse a week
string like `"Oct 24-30"` or `"Dec 28-Jan 3"` into start and end ISO dates,
returning the absent pair on every failure. -/
def parse_week_date_range (week_str : Option String) (year? : Option Int) :
    Option String × Option String :=
  match week_str, year? with
  | none, _ => (none, none)
  | _, none => (none, none)
  | some ws, some y =>
    if ws = "" then (none, none)
    else
      match weekTokens ws with
      | [mn, dr] => weekCore y mn dr none
      | [mn, dr, t3] => weekCore y mn dr (some t3)
      | _ => (none, none)

/-! ## Box-score page model

The box-score extractor `parse_box_score_page` queries an HTML document for:
a `div.scorebox` with its `strong` tags (team names, possibly wrapped in an
anchor) and `div.score` texts; and every `table` whose id starts with
`box-` and ends with `-basic`, with its `tbody` rows, each row holding a
`th[data-stat="player"]` (possibly wrapping an anchor) and `td[data-stat]`
cells.  The model keeps exactly that structure. -/

/-- A `td` cell of a statistics row: its `data-stat` attribute and its text. -/
structure Cell where
  dataStat : String
  text : String
deriving DecidableEq, Repr

/-- The `th[data-stat="player"]` header of a row: optional anchor text and
the stripped text content. -/
structure PlayerTh where
  a : Option String
  text : String
deriving DecidableEq, Repr

/-- A `tr` of a basic statistics table. -/
structure Row where
  playerTh : Option PlayerTh
  cells : List Cell
deriving DecidableEq, Repr

/-- A `table` element: its optional `id` attribute and its optional `tbody`
row list. -/
structure StatTable where
  id : Option String
  tbody : Option (List Row)
deriving DecidableEq, Repr

/-- A `strong` tag of the score box: optional anchor text and own text. -/
structure TeamStrong where
  a : Option String
  text : String
deriving DecidableEq, Repr

/-- The `div.scorebox` region: its `strong` tags and its `div.score` texts,
in document order. -/
structure Scorebox where
  strongs : List TeamStrong
  scores : List String
deriving DecidableEq, Repr

/-- A parsed box-score document: optional score box and all tables. -/
structure BoxDoc where
  scorebox : Option Scorebox
  tables : List StatTable
deriving DecidableEq, Repr

/-- One emitted player statistics line (the `player_row_data` dictionary of
source lines 176-199). -/
structure PlayerRow where
  player_name : String
  team : String
  mp : String
  fg : Option Int
  fga : Option Int
  fg_pct : Option Rat
  fg3 : Option Int
  fg3a : Option Int
  fg3_pct : Option Rat
  ft : Option Int
  fta : Option Int
  ft_pct : Option Rat
  orb : Option Int
  drb : Option Int
  trb : Option Int
  ast : Option Int
  stl : Option Int
  blk : Option Int
  tov : Option Int
  pf : Option Int
  pts : Option Int
  plus_minus : Option String
deriving DecidableEq, Repr

/-- The `game_data` dictionary in its successful shape (all team and score
fields set, source lines 115-148). -/
structure GameData where
  away_team : String
  home_team : String
  away_score : Int
  home_score : Int
  players : List PlayerRow
deriving DecidableEq, Repr

/-- Model of `element.find("td", attrs={"data-stat": stat})`: the first cell
with the given `data-stat`. -/
def findCell (r : Row) (stat : String) : Option Cell :=
  r.cells.find? (fun c => c.dataStat == stat)

/-- Embedding of `_get_cell_text` (source lines 18-24): the stripped cell
text, or `none` when the cell is missing or its stripped text is empty.  The
logging parameters of the source are dropped. -/
def _get_cell_text (r : Row) (stat : String) : Option String :=
  match findCell r stat with
  | none => none
  | some c => if pyStripS c.text = "" then none else some (pyStripS c.text)

/-- Embedding of `_to_int` (source lines 26-34): lenient integer conversion,
`none` on missing, empty or unparseable input. -/
def _to_int (value : Option String) : Option Int :=
  match value with
  | none => none
  | some s => if s = "" then none else pyInt s

/-- Embedding of `_to_real` (source lines 36-44): lenient float conversion,
`none` on missing, empty or unparseable input. -/
def _to_real (value : Option String) : Option Rat :=
  match value with
  | none => none
  | some s => if s = "" then none else pyFloat s

/-- The `non_playing_statuses` list of source line 171. -/
def non_playing_statuses : List String :=
  ["Did Not Play", "Not With Team", "Did Not Dress", "Inactive", "Player Suspended"]

/-- The `player_row_data` record built for a participating player
(source lines 176-199). -/
def mkPlayerRow (team pn mp : String) (r : Row) : PlayerRow :=
  { player_name := pn
    team := team
    mp := mp
    fg := _to_int (_get_cell_text r "fg")
    fga := _to_int (_get_cell_text r "fga")
    fg_pct := _to_real (_get_cell_text r "fg_pct")
    fg3 := _to_int (_get_cell_text r "fg3")
    fg3a := _to_int (_get_cell_text r "fg3a")
    fg3_pct := _to_real (_get_cell_text r "fg3_pct")
    ft := _to_int (_get_cell_text r "ft")
    fta := _to_int (_get_cell_text r "fta")
    ft_pct := _to_real (_get_cell_text r "ft_pct")
    orb := _to_int (_get_cell_text r "orb")
    drb := _to_int (_get_cell_text r "drb")
    trb := _to_int (_get_cell_text r "trb")
    ast := _to_int (_get_cell_text r "ast")
    stl := _to_int (_get_cell_text r "stl")
    blk := _to_int (_get_cell_text r "blk")
    tov := _to_int (_get_cell_text r "tov")
    pf := _to_int (_get_cell_text r "pf")
    pts := _to_int (_get_cell_text r "pts")
    plus_minus := _get_cell_text r "plus_minus" }

/-- Per-row body of the table loop (source lines 161-200): skip rows without
a player anchor, skip non-participating players, otherwise build the stat
line.  The `mp = ""` disjunct mirrors the source's `or not mp_val` and is
unreachable because `_get_cell_text` never returns an empty string. -/
def parseRow (team : String) (r : Row) : Option PlayerRow :=
  match r.playerTh with
  | none => none
  | some th =>
    match th.a with
    | none => none
    | some pn =>
      match _get_cell_text r "mp" with
      | none => none
      | some mp =>
        if mp ∈ non_playing_statuses ∨ mp = "" then none
        else some (mkPlayerRow team pn mp r)

/-- The id filter of `soup.find_all("table", id=...)` at source line 150. -/
def isBasicTable (t : StatTable) : Bool :=
  match t.id with
  | some tid => strStarts tid "box-" && strEnds tid "-basic"
  | none => false

/-- The team abbreviation taken from a table id: `table.get("id").split("-")[1]`
(source line 155).  The index is total here via a default that is unreachable
for ids passing the `box-` prefix filter. -/
def teamFromId (tid : String) : String :=
  (splitChar '-' tid.toList).getD 1 ""

/-- Player lines contributed by one table (source lines 154-200): absent
`tbody` contributes nothing, otherwise each row is parsed for the table's
team. -/
def tablePlayers (t : StatTable) : List PlayerRow :=
  match t.id with
  | none => []
  | some tid =>
    match t.tbody with
    | none => []
    | some rows => rows.filterMap (parseRow (teamFromId tid))

/-- The first-two team names of the score box:
`[team.a.text if team.a else team.text for team in teams[:2]]`
(source lines 126-127). -/
def teamNamesOf (sb : Scorebox) : List String :=
  (sb.strongs.take 2).map (fun t => match t.a with | some a => a | none => t.text)

/-- The first-two final score texts of the score box (source lines 128-129). -/
def finalScoresOf (sb : Scorebox) : List String := sb.scores.take 2

/-- Embedding of `parse_box_score_page` (source lines 106-202): reject on a
missing document, missing score box, team-name or score extraction not
yielding exactly two items, or unparseable scores; otherwise return the game
record with the away team first and the player lines of every basic table. -/
def parse_box_score_page (soup : Option BoxDoc) : Option GameData :=
  match soup with
  | none => none
  | some doc =>
    match doc.scorebox with
    | none => none
    | some sb =>
      match teamNamesOf sb, finalScoresOf sb with
      | [awayName, homeName], [awayTxt, homeTxt] =>
        (match pyInt awayTxt, pyInt homeTxt with
         | some awayScore, some homeScore =>
           some { away_team := awayName
                  home_team := homeName
                  away_score := awayScore
                  home_score := homeScore
                  players := ((doc.tables.filter isBasicTable).map tablePlayers).flatten }
         | _, _ => none)
      | _, _ => none

/-! ## Daily games page model

`parse_daily_games_page` queries the document with a primary CSS selector
(`td.gamelink a[href*="/boxscores/"]`) and, when that yields zero box-score
links, a fallback selector over game-summary containers.  The model carries
the two anchor lists those selectors return. -/

/-- An anchor tag: its optional `href` attribute (`tag.get("href", "")`
defaults a missing attribute to the empty string). -/
structure Anchor where
  href : Option String
deriving DecidableEq, Repr

/-- A parsed daily-index document: the anchors matched by the primary
selector and those matched by the fallback selector. -/
structure DailyDoc where
  primaryAnchors : List Anchor
  fallbackAnchors : List Anchor
deriving DecidableEq, Repr

/-- The `is_box_score_link` check of source lines 66 and 91. -/
def is_box_score_link (href : String) : Bool :=
  strStarts href "/boxscores/" && strEnds href ".html"

/-- The `is_not_sub_page` check of source lines 67-70 and 92-95. -/
def is_not_sub_page (href : String) : Bool :=
  !strHasSub href "/pbp/" && !strHasSub href "/shot-chart/" &&
    !strHasSub href "/plus-minus/" && !strHasSub href "/leaders/"

/-- Box-score references yielded by one anchor list: the shared filter-and-
qualify logic applied identically by both strategies (source lines 61-76 and
89-100). -/
def filterGameRefs (anchors : List Anchor) : List String :=
  anchors.filterMap (fun a =>
    let href := a.href.getD ""
    if is_box_score_link href && is_not_sub_page href then
      some ("https://www.basketball-reference.com" ++ href)
    else none)

/-- Embedding of `parse_daily_games_page` (source lines 46-103): the primary
anchors are filtered first; the fallback anchors are consulted only when
that yields zero references; a missing document yields nothing. -/
def parse_daily_games_page (soup : Option DailyDoc) : List String :=
  match soup with
  | none => []
  | some d =>
    let primary := filterGameRefs d.primaryAnchors
    if primary.isEmpty then filterGameRefs d.fallbackAnchors else primary

/-- A daily-index document whose primary selector matches only a
play-by-play sub-page anchor (filtered out, so zero primary references)
while the fallback selector matches one valid box-score anchor. -/
def fallbackOnlyDoc : DailyDoc :=
  { primaryAnchors := [{ href := some "/boxscores/pbp/202310260MIL.html" }]
    fallbackAnchors := [{ href := some "/boxscores/202310260MIL.html" }, { href := none }] }

/-- A daily-index document whose primary selector yields one valid
box-score reference. -/
def primaryHitDoc : DailyDoc :=
  { primaryAnchors := [{ href := some "/boxscores/202310260LAL.html" }]
    fallbackAnchors := [] }

/-- A row holding a full player line: anchor, minutes and several stat
cells (mirrors the sample fixture of the repository tests). -/
def embiidRow : Row :=
  { playerTh := some { a := some "Joel Embiid", text := "Joel Embiid" }
    cells := [{ dataStat := "mp", text := "36:29" },
              { dataStat := "fg", text := "9" },
              { dataStat := "fg_pct", text := ".429" },
              { dataStat := "pts", text := "24" },
              { dataStat := "plus_minus", text := "+2" }] }

/-- The divider row of the reserves section: a header cell with no anchor. -/
def reservesRow : Row :=
  { playerTh := some { a := none, text := "Reserves" }, cells := [] }

/-- A row whose minutes cell holds a non-participation marker. -/
def dnpRow : Row :=
  { playerTh := some { a := some "Player DNP", text := "Player DNP" }
    cells := [{ dataStat := "mp", text := "Did Not Play" }] }

/-- A participating player whose stat cells are empty or missing. -/
def emptyStatsRow : Row :=
  { playerTh := some { a := some "Player EmptyStats", text := "Player EmptyStats" }
    cells := [{ dataStat := "mp", text := "20:00" },
              { dataStat := "fg", text := "" },
              { dataStat := "pts", text := " " }] }

/-- The stat line emitted for `emptyStatsRow`: every stat absent, never
zero. -/
def emptyStatsLine : PlayerRow :=
  { player_name := "Player EmptyStats", team := "PHI", mp := "20:00"
    fg := none, fga := none, fg_pct := none, fg3 := none, fg3a := none
    fg3_pct := none, ft := none, fta := none, ft_pct := none, orb := none
    drb := none, trb := none, ast := none, stl := none, blk := none
    tov := none, pf := none, pts := none, plus_minus := none }

/-- A participating player whose `fg` cell carries a sign prefix and whose
`fg_pct` cell is a decimal above one. -/
def negStatRow : Row :=
  { playerTh := some { a := some "Neg Player", text := "Neg Player" }
    cells := [{ dataStat := "mp", text := "20:00" },
              { dataStat := "fg", text := "-5" },
              { dataStat := "fg_pct", text := "1.5" }] }

/-- The stat line emitted for `negStatRow`: a negative count and an
out-of-range percentage pass through unchecked. -/
def negStatLine : PlayerRow :=
  { player_name := "Neg Player", team := "PHI", mp := "20:00"
    fg := some (-5), fga := none, fg_pct := some (mkRat 3 2), fg3 := none
    fg3a := none, fg3_pct := none, ft := none, fta := none, ft_pct := none
    orb := none, drb := none, trb := none, ast := none, stl := none
    blk := none, tov := none, pf := none, pts := none, plus_minus := none }

/-- A score box with two anchored team names and two parseable scores. -/
def sampleScorebox : Scorebox :=
  { strongs := [{ a := some "Philadelphia 76ers", text := "x" },
                { a := none, text := "Milwaukee Bucks" }]
    scores := ["117", "118"] }

/-- A full box-score document: valid score box and one basic table holding a
player row, a divider row and a non-participating player row. -/
def sampleDoc : BoxDoc :=
  { scorebox := some sampleScorebox
    tables := [{ id := some "box-PHI-game-basic"
                 tbody := some [embiidRow, reservesRow, dnpRow] }] }

/-- The game record extracted from `sampleDoc`. -/
def sampleGame : GameData :=
  { away_team := "Philadelphia 76ers", home_team := "Milwaukee Bucks"
    away_score := 117, home_score := 118
    players := [{ player_name := "Joel Embiid", team := "PHI", mp := "36:29"
                  fg := some 9, fga := none, fg_pct := some (mkRat 429 1000)
                  fg3 := none, fg3a := none, fg3_pct := none
                  ft := none, fta := none, ft_pct := none
                  orb := none, drb := none, trb := none, ast := none
                  stl := none, blk := none, tov := none, pf := none
                  pts := some 24, plus_minus := some "+2" }] }

/-- A box-score document whose basic stat table carries a negative count and
an out-of-range percentage. -/
def negStatDoc : BoxDoc :=
  { scorebox := some sampleScorebox
    tables := [{ id := some "box-PHI-game-basic", tbody := some [negStatRow] }] }

/-- A box-score document whose basic table id has the four-segment
`box-MIL-game-basic` shape used by the source site. -/
def gameIdDoc : BoxDoc :=
  { scorebox := some sampleScorebox
    tables := [{ id := some "box-MIL-game-basic"
                 tbody := some [{ playerTh := some { a := some "Giannis Antetokounmpo",
                                                     text := "Giannis Antetokounmpo" }
                                  cells := [{ dataStat := "mp", text := "35:17" }] }] }] }

/-- The team abbreviation as the specification words it: the segment of the
table id strictly between the `box-` prefix and the `-basic` suffix.  This
definition follows the specification text, to be compared with `teamFromId`,
which embeds the source's `split("-")[1]`. -/
def specTeamSegment (tid : String) : String :=
  String.mk ((tid.toList.drop 4).take ((tid.toList.drop 4).length - 6))

/-! ## Claim theorems: award date resolver -/

/-- C5: the month-name normalizer returns the same 1-12 month number for a
month name regardless of letter case and trailing period punctuation
(`f "OCT." = f "october" = 10`), recognizes the twelve full names and the
twelve three-letter abbreviations, maps the compound `"Oct/Nov"` to 11
(November), and returns `none` for empty or unrecognized input. -/
theorem get_month_numeric_spec :
    (get_month_numeric (some "OCT.") = some 10 ∧
     get_month_numeric (some "october") = some 10 ∧
     get_month_numeric (some "Oct") = some 10 ∧
     get_month_numeric (some "oCtObEr.") = some 10) ∧
    (get_month_numeric (some "January") = some 1 ∧
     get_month_numeric (some "February") = some 2 ∧
     get_month_numeric (some "March") = some 3 ∧
     get_month_numeric (some "April") = some 4 ∧
     get_month_numeric (some "May") = some 5 ∧
     get_month_numeric (some "June") = some 6 ∧
     get_month_numeric (some "July") = some 7 ∧
     get_month_numeric (some "August") = some 8 ∧
     get_month_numeric (some "September") = some 9 ∧
     get_month_numeric (some "October") = some 10 ∧
     get_month_numeric (some "November") = some 11 ∧
     get_month_numeric (some "December") = some 12) ∧
    (get_month_numeric (some "Jan") = some 1 ∧
     get_month_numeric (some "Feb") = some 2 ∧
     get_month_numeric (some "Mar") = some 3 ∧
     get_month_numeric (some "Apr") = some 4 ∧
     get_month_numeric (some "Jun") = some 6 ∧
     get_month_numeric (some "Jul") = some 7 ∧
     get_month_numeric (some "Aug") = some 8 ∧
     get_month_numeric (some "Sep") = some 9 ∧
     get_month_numeric (some "Nov") = some 11 ∧
     get_month_numeric (some "Dec") = some 12 ∧
     get_month_numeric (some "Dec.") = some 12 ∧
     get_month_numeric (some "JAN") = some 1) ∧
    get_month_numeric (some "Oct/Nov") = some 11 ∧
    (get_month_numeric (some "") = none ∧
     get_month_numeric none = none ∧
     get_month_numeric (some "InvalidMonth") = none ∧
     get_month_numeric (some "Octob") = none) := by
  decide

/-- C4: the season-year resolver sends months 8-12 to the season's starting
calendar year and months 1-7 to starting year plus one whenever the season
label splits into two numeric hyphen-joined parts, and returns `none` when
the label does not have that shape or the month is outside 1-12; the
`"2022-23"` examples evaluate as the spec states. -/
theorem get_award_year_spec :
    (∀ (s : String) (m n : Int) (a b : String),
        splitChar '-' s.toList = [a, b] → pyIsDigit a = true → pyIsDigit b = true →
        pyInt a = some n → 1 ≤ m → m ≤ 12 →
        get_award_year (some s) (some m) = some (if 8 ≤ m then n else n + 1)) ∧
    (∀ (s : String) (m : Int),
        (¬ ∃ a b, splitChar '-' s.toList = [a, b] ∧ pyIsDigit a = true ∧ pyIsDigit b = true) →
        get_award_year (some s) (some m) = none) ∧
    (∀ (s : String) (m : Int), m < 1 ∨ 12 < m → get_award_year (some s) (some m) = none) ∧
    (get_award_year (some "2022-23") (some 10) = some 2022 ∧
     get_award_year (some "2022-23") (some 1) = some 2023 ∧
     get_award_year (some "2022-23") (some 8) = some 2022 ∧
     get_award_year (some "2022-23") (some 7) = some 2023) := by
  refine ⟨?_, ?_, ?_, by decide, by decide, by decide, by decide⟩
  · intro s m n a b hsplit ha hb hn h1 h2
    have hs : ¬ s = "" := by
      intro h
      subst h
      simp [splitChar, splitCharAux] at hsplit
    simp only [get_award_year]
    rw [if_neg hs, hsplit]
    simp only [ha, hb, Bool.and_self, if_true, hn]
    rw [if_pos ⟨h1, h2⟩]
    by_cases h8 : 8 ≤ m
    · rw [if_pos h8, if_pos h8]
    · rw [if_neg h8, if_neg h8]
  · intro s m hno
    simp only [get_award_year]
    by_cases hs : s = ""
    · rw [if_pos hs]
    · rw [if_neg hs]
      rcases hsp : splitChar '-' s.toList with _ | ⟨a, _ | ⟨b, _ | ⟨c, l⟩⟩⟩
      · rfl
      · rfl
      · have hab : ¬ (pyIsDigit a = true ∧ pyIsDigit b = true) := by
          intro h
          exact hno ⟨a, b, hsp, h.1, h.2⟩
        have hfalse : (pyIsDigit a && pyIsDigit b) = false := by
          cases hA : pyIsDigit a <;> cases hB : pyIsDigit b <;> simp_all
        simp [hfalse]
      · rfl
  · intro s m hm
    simp only [get_award_year]
    by_cases hs : s = ""
    · rw [if_pos hs]
    · rw [if_neg hs]
      rcases hsp : splitChar '-' s.toList with _ | ⟨a, _ | ⟨b, _ | ⟨c, l⟩⟩⟩
      · rfl
      · rfl
      · have hr : ¬ (1 ≤ m ∧ m ≤ 12) := by omega
        cases hd : (pyIsDigit a && pyIsDigit b)
        · simp [hd]
        · cases hpi : pyInt a
          · simp [hd, hpi]
          · simp [hd, hpi, hr]
      · rfl

/-- Witness for `get_award_year_spec`: instantiating its first conjunct at
season `"2022-23"` and month 10 yields the starting year 2022. -/
theorem get_award_year_spec_witness :
    get_award_year (some "2022-23") (some 10) = some (if 8 ≤ (10 : Int) then 2022 else 2022 + 1) :=
  get_award_year_spec.1 "2022-23" 10 2022 "2022" "23"
    (by decide) (by decide) (by decide) (by decide) (by decide) (by decide)

/-- C3: the week-range resolver evaluates the four spec examples as stated
(month-crossing `"Dec 28-Jan 3"`, plain `"Oct 24-30"`, single-day
`"Nov 7"`, and the invalid `"Oct 32-35"` rejected rather than clamped),
and the month-crossing end year is the start year plus one exactly when the
end month number is smaller than the start month number. -/
theorem parse_week_date_range_spec :
    parse_week_date_range (some "Dec 28-Jan 3") (some 2022) =
      (some "2022-12-28", some "2023-01-03") ∧
    parse_week_date_range (some "Oct 24-30") (some 2023) =
      (some "2023-10-24", some "2023-10-30") ∧
    parse_week_date_range (some "Nov 7") (some 2023) =
      (some "2023-11-07", some "2023-11-07") ∧
    parse_week_date_range (some "Oct 32-35") (some 2023) = (none, none) ∧
    (∀ (ys : Int) (sm em : Nat), crossEndYear ys sm em = ys + 1 ↔ em < sm) ∧
    parse_week_date_range (some "Oct 30-Nov 5") (some 2023) =
      (some "2023-10-30", some "2023-11-05") := by
  refine ⟨by decide, by decide, by decide, by decide, ?_, by decide⟩
  intro ys sm em
  unfold crossEndYear
  by_cases h : em < sm
  · simp [h]
  · simp only [if_neg h]
    constructor
    · intro habs
      omega
    · intro habs
      exact absurd habs h

/-- Witness for `parse_week_date_range_spec`: its end-year rule applied at
start month 12 and end month 1 crosses into the next year. -/
theorem parse_week_date_range_spec_witness :
    crossEndYear 2022 12 1 = 2022 + 1 :=
  (parse_week_date_range_spec.2.2.2.2.1 2022 12 1).mpr (by decide)

/-- C7: the week-range resolver tokenizes by stripping periods and splitting
on whitespace, rejoins the four-token form with a lone hyphen into two
tokens, accepts only token counts two and three, and fails with the absent
pair on any other count; in particular the five-token
`"Dec 28 - Jan 3"` fails. -/
theorem parse_week_date_range_tokens :
    (∀ (ws : String) (y : Int),
        (weekTokens ws).length ≠ 2 → (weekTokens ws).length ≠ 3 →
        parse_week_date_range (some ws) (some y) = (none, none)) ∧
    (∀ (ws : String) (a b d : String), weekPartsRaw ws = [a, b, "-", d] →
        weekTokens ws = [a, b ++ "-" ++ d]) ∧
    weekPartsRaw "Dec 28 - Jan 3" = ["Dec", "28", "-", "Jan", "3"] ∧
    parse_week_date_range (some "Dec 28 - Jan 3") (some 2023) = (none, none) ∧
    weekTokens "Oct 24 - 30" = ["Oct", "24-30"] := by
  refine ⟨?_, ?_, by decide, by decide, by decide⟩
  · intro ws y h2 h3
    simp only [parse_week_date_range]
    by_cases hw : ws = ""
    · rw [if_pos hw]
    · rw [if_neg hw]
      rcases htok : weekTokens ws with _ | ⟨a, _ | ⟨b, _ | ⟨c, _ | ⟨d, l⟩⟩⟩⟩
      · rfl
      · rfl
      · rw [htok] at h2
        simp at h2
      · rw [htok] at h3
        simp at h3
      · rfl
  · intro ws a b d h
    unfold weekTokens
    rw [h]
    simp [rejoinHyphen]

/-- Witness for `parse_week_date_range_tokens`: its token-count rule applied
to the five-token week string returns the absent pair. -/
theorem parse_week_date_range_tokens_witness :
    parse_week_date_range (some "Dec 28 - Jan 3") (some 2023) = (none, none) :=
  parse_week_date_range_tokens.1 "Dec 28 - Jan 3" 2023 (by decide) (by decide)

/-! ## Claim theorems: daily-index link extractor -/

/-- C8: the daily-index extractor returns the primary-selector references
whenever there is at least one, consults the fallback selector (with the
identical filter `filterGameRefs`) exactly when the primary yields zero,
returns the empty sequence when both yield zero, and on a document with
zero primary matches and one fallback match yields exactly that one
reference. -/
theorem parse_daily_games_page_spec :
    (∀ d : DailyDoc, filterGameRefs d.primaryAnchors ≠ [] →
        parse_daily_games_page (some d) = filterGameRefs d.primaryAnchors) ∧
    (∀ d : DailyDoc, filterGameRefs d.primaryAnchors = [] →
        parse_daily_games_page (some d) = filterGameRefs d.fallbackAnchors) ∧
    (∀ d : DailyDoc, filterGameRefs d.primaryAnchors = [] →
        filterGameRefs d.fallbackAnchors = [] → parse_daily_games_page (some d) = []) ∧
    (filterGameRefs fallbackOnlyDoc.primaryAnchors = [] ∧
     parse_daily_games_page (some fallbackOnlyDoc) =
       ["https://www.basketball-reference.com/boxscores/202310260MIL.html"]) := by
  refine ⟨?_, ?_, ?_, by decide, by decide⟩
  · intro d h
    simp only [parse_daily_games_page]
    rw [if_neg (by simpa [List.isEmpty_iff] using h)]
  · intro d h
    simp only [parse_daily_games_page]
    rw [if_pos (by simpa [List.isEmpty_iff] using h)]
  · intro d h hf
    simp only [parse_daily_games_page]
    rw [if_pos (by simpa [List.isEmpty_iff] using h), hf]

/-- Witness for `parse_daily_games_page_spec`: on a document whose primary
selector yields one reference, that reference list is returned. -/
theorem parse_daily_games_page_spec_witness :
    parse_daily_games_page (some primaryHitDoc) = filterGameRefs primaryHitDoc.primaryAnchors :=
  parse_daily_games_page_spec.1 primaryHitDoc (by decide)

/-! ## Helper lemmas about the box-score extractor -/

/-- Characterization of a successful `parseRow`: there is a header with an
anchor, a present minutes value that is no non-participation marker, and the
result is the record built by `mkPlayerRow`. -/
theorem parseRow_some_iff (team : String) (r : Row) (p : PlayerRow) :
    parseRow team r = some p ↔
      ∃ th pn mp, r.playerTh = some th ∧ th.a = some pn ∧
        _get_cell_text r "mp" = some mp ∧ ¬ (mp ∈ non_playing_statuses ∨ mp = "") ∧
        p = mkPlayerRow team pn mp r := by
  constructor
  · intro h
    unfold parseRow at h
    split at h
    · cases h
    · rename_i th hth
      split at h
      · cases h
      · rename_i pn ha
        split at h
        · cases h
        · rename_i mp hmp
          split at h
          · cases h
          · rename_i hst
            injection h with he
            exact ⟨th, pn, mp, hth, ha, hmp, hst, he.symm⟩
  · rintro ⟨th, pn, mp, hth, ha, hmp, hst, rfl⟩
    unfold parseRow
    simp only [hth, ha, hmp]
    rw [if_neg hst]

/-- Field equations of an emitted player line: every stat field is the
lenient parse of the corresponding cell of the source row, and name, team
and minutes come from the anchor, the owning table and the minutes cell. -/
theorem parseRow_fields (team : String) (r : Row) (p : PlayerRow)
    (h : parseRow team r = some p) :
    p.team = team ∧
    (∃ th, r.playerTh = some th ∧ th.a = some p.player_name) ∧
    _get_cell_text r "mp" = some p.mp ∧
    p.fg = _to_int (_get_cell_text r "fg") ∧
    p.fga = _to_int (_get_cell_text r "fga") ∧
    p.fg3 = _to_int (_get_cell_text r "fg3") ∧
    p.fg3a = _to_int (_get_cell_text r "fg3a") ∧
    p.ft = _to_int (_get_cell_text r "ft") ∧
    p.fta = _to_int (_get_cell_text r "fta") ∧
    p.orb = _to_int (_get_cell_text r "orb") ∧
    p.drb = _to_int (_get_cell_text r "drb") ∧
    p.trb = _to_int (_get_cell_text r "trb") ∧
    p.ast = _to_int (_get_cell_text r "ast") ∧
    p.stl = _to_int (_get_cell_text r "stl") ∧
    p.blk = _to_int (_get_cell_text r "blk") ∧
    p.tov = _to_int (_get_cell_text r "tov") ∧
    p.pf = _to_int (_get_cell_text r "pf") ∧
    p.pts = _to_int (_get_cell_text r "pts") ∧
    p.fg_pct = _to_real (_get_cell_text r "fg_pct") ∧
    p.fg3_pct = _to_real (_get_cell_text r "fg3_pct") ∧
    p.ft_pct = _to_real (_get_cell_text r "ft_pct") ∧
    p.plus_minus = _get_cell_text r "plus_minus" := by
  rcases (parseRow_some_iff team r p).mp h with ⟨th, pn, mp, hth, ha, hmp, hst, hpe⟩
  subst hpe
  exact ⟨rfl, ⟨th, hth, ha⟩, hmp, rfl, rfl, rfl, rfl, rfl, rfl, rfl, rfl, rfl, rfl,
    rfl, rfl, rfl, rfl, rfl, rfl, rfl, rfl, rfl⟩

/-- The player list of a successfully parsed page is the concatenation of
the per-table player lists over the basic tables. -/
theorem parse_box_score_page_players (doc : BoxDoc) (g : GameData)
    (hg : parse_box_score_page (some doc) = some g) :
    g.players = ((doc.tables.filter isBasicTable).map tablePlayers).flatten := by
  simp only [parse_box_score_page] at hg
  split at hg
  · cases hg
  · rename_i sb hsb
    rcases htn : teamNamesOf sb with _ | ⟨a1, _ | ⟨a2, _ | ⟨a3, tr⟩⟩⟩ <;> rw [htn] at hg
    · cases hg
    · cases hg
    · rcases hfs : finalScoresOf sb with _ | ⟨s1, _ | ⟨s2, _ | ⟨s3, sr⟩⟩⟩ <;> rw [hfs] at hg
      · cases hg
      · cases hg
      · simp only [] at hg
        rcases hp1 : pyInt s1 with _ | v1 <;> rw [hp1] at hg
        · cases hg
        · rcases hp2 : pyInt s2 with _ | v2 <;> rw [hp2] at hg
          · cases hg
          · simp only [] at hg
            injection hg with hge
            rw [← hge]
      · cases hg
    · cases hg

/-- Every emitted player line originates in a row of a basic table of the
document, parsed with the team taken from that table's id. -/
theorem mem_players_origin (doc : BoxDoc) (g : GameData) (p : PlayerRow)
    (hg : parse_box_score_page (some doc) = some g) (hp : p ∈ g.players) :
    ∃ t tid rows r, t ∈ doc.tables ∧ t.id = some tid ∧
      strStarts tid "box-" = true ∧ strEnds tid "-basic" = true ∧
      t.tbody = some rows ∧ r ∈ rows ∧ parseRow (teamFromId tid) r = some p := by
  rw [parse_box_score_page_players doc g hg] at hp
  rcases List.mem_flatten.mp hp with ⟨l, hl, hpl⟩
  rcases List.mem_map.mp hl with ⟨t, ht, hteq⟩
  rcases List.mem_filter.mp ht with ⟨htmem, hbasic⟩
  subst hteq
  unfold isBasicTable at hbasic
  split at hbasic
  · rename_i tid hid
    rw [Bool.and_eq_true] at hbasic
    obtain ⟨hpre, hsuf⟩ := hbasic
    unfold tablePlayers at hpl
    split at hpl
    · rename_i hid2
      rw [hid] at hid2
      cases hid2
    · rename_i tid2 hid2
      rw [hid] at hid2
      injection hid2 with he
      subst he
      split at hpl
      · simp at hpl
      · rename_i rows hrows
        rcases List.mem_filterMap.mp hpl with ⟨r, hr, hpr⟩
        exact ⟨t, tid, rows, r, htmem, hid, hpre, hsuf, hrows, hr, hpr⟩
  · cases hbasic

/-- A negative result of the Python `int` conversion can only come from a
string whose stripped form starts with a minus sign. -/
theorem pyIntList_neg_head (l : List Char) (n : Int)
    (h : pyIntList l = some n) (hneg : n < 0) : (pyStrip l).head? = some '-' := by
  unfold pyIntList at h
  split at h
  · rename_i rest heq
    rw [heq]
    rfl
  · split at h
    · injection h with he
      omega
    · cases h
  · split at h
    · injection h with he
      omega
    · cases h

/-! ## Claim theorems: box-score extractor -/

/-- C1: the box-score extractor returns the rejection value exactly when the
document is missing, the score region is absent, the team-name extraction
does not yield exactly two items, the score extraction does not yield
exactly two items, or the two score texts do not both parse as integers;
otherwise the away team and score come from the first extracted item and
the home team and score from the second. -/
theorem parse_box_score_page_reject (soup : Option BoxDoc) :
    (parse_box_score_page soup = none ↔
      soup = none ∨ ∃ doc, soup = some doc ∧
        (doc.scorebox = none ∨ ∃ sb, doc.scorebox = some sb ∧
          ((teamNamesOf sb).length ≠ 2 ∨ (finalScoresOf sb).length ≠ 2 ∨
           pyInt ((finalScoresOf sb).getD 0 "") = none ∨
           pyInt ((finalScoresOf sb).getD 1 "") = none))) ∧
    (∀ doc sb g, soup = some doc → doc.scorebox = some sb →
        parse_box_score_page soup = some g →
        g.away_team = (teamNamesOf sb).getD 0 "" ∧
        g.home_team = (teamNamesOf sb).getD 1 "" ∧
        pyInt ((finalScoresOf sb).getD 0 "") = some g.away_score ∧
        pyInt ((finalScoresOf sb).getD 1 "") = some g.home_score) := by
  cases soup with
  | none =>
    refine ⟨?_, ?_⟩
    · simp [parse_box_score_page]
    · intro doc sb g hd
      cases hd
  | some doc =>
    rcases hsb : doc.scorebox with _ | sb
    · refine ⟨?_, ?_⟩
      · constructor
        · intro _
          exact Or.inr ⟨doc, rfl, Or.inl hsb⟩
        · intro _
          simp [parse_box_score_page, hsb]
      · intro doc2 sb2 g hd hsb2 hg
        injection hd with hde
        subst hde
        rw [hsb] at hsb2
        cases hsb2
    · have hlen2 : (teamNamesOf sb).length ≤ 2 := by
        simp only [teamNamesOf, List.length_map, List.length_take]
        omega
      have hfslen2 : (finalScoresOf sb).length ≤ 2 := by
        simp only [finalScoresOf, List.length_take]
        omega
      rcases htn : teamNamesOf sb with _ | ⟨a1, _ | ⟨a2, _ | ⟨a3, tr⟩⟩⟩
      · have hparse : parse_box_score_page (some doc) = none := by
          simp [parse_box_score_page, hsb, htn]
        refine ⟨?_, ?_⟩
        · rw [hparse]
          constructor
          · intro _
            exact Or.inr ⟨doc, rfl, Or.inr ⟨sb, hsb, Or.inl (by rw [htn]; simp)⟩⟩
          · intro _
            rfl
        · intro doc2 sb2 g hd hsb2 hg
          rw [hparse] at hg
          cases hg
      · have hparse : parse_box_score_page (some doc) = none := by
          simp [parse_box_score_page, hsb, htn]
        refine ⟨?_, ?_⟩
        · rw [hparse]
          constructor
          · intro _
            exact Or.inr ⟨doc, rfl, Or.inr ⟨sb, hsb, Or.inl (by rw [htn]; simp)⟩⟩
          · intro _
            rfl
        · intro doc2 sb2 g hd hsb2 hg
          rw [hparse] at hg
          cases hg
      · rcases hfs : finalScoresOf sb with _ | ⟨s1, _ | ⟨s2, _ | ⟨s3, sr⟩⟩⟩
        · have hparse : parse_box_score_page (some doc) = none := by
            simp [parse_box_score_page, hsb, htn, hfs]
          refine ⟨?_, ?_⟩
          · rw [hparse]
            constructor
            · intro _
              exact Or.inr ⟨doc, rfl, Or.inr ⟨sb, hsb, Or.inr (Or.inl (by rw [hfs]; simp))⟩⟩
            · intro _
              rfl
          · intro doc2 sb2 g hd hsb2 hg
            rw [hparse] at hg
            cases hg
        · have hparse : parse_box_score_page (some doc) = none := by
            simp [parse_box_score_page, hsb, htn, hfs]
          refine ⟨?_, ?_⟩
          · rw [hparse]
            constructor
            · intro _
              exact Or.inr ⟨doc, rfl, Or.inr ⟨sb, hsb, Or.inr (Or.inl (by rw [hfs]; simp))⟩⟩
            · intro _
              rfl
          · intro doc2 sb2 g hd hsb2 hg
            rw [hparse] at hg
            cases hg
        · rcases hp1 : pyInt s1 with _ | v1
          · have hparse : parse_box_score_page (some doc) = none := by
              simp [parse_box_score_page, hsb, htn, hfs, hp1]
            refine ⟨?_, ?_⟩
            · rw [hparse]
              constructor
              · intro _
                refine Or.inr ⟨doc, rfl, Or.inr ⟨sb, hsb, Or.inr (Or.inr (Or.inl ?_))⟩⟩
                rw [hfs]
                simpa using hp1
              · intro _
                rfl
            · intro doc2 sb2 g hd hsb2 hg
              rw [hparse] at hg
              cases hg
          · rcases hp2 : pyInt s2 with _ | v2
            · have hparse : parse_box_score_page (some doc) = none := by
                simp [parse_box_score_page, hsb, htn, hfs, hp1, hp2]
              refine ⟨?_, ?_⟩
              · rw [hparse]
                constructor
                · intro _
                  refine Or.inr ⟨doc, rfl, Or.inr ⟨sb, hsb, Or.inr (Or.inr (Or.inr ?_))⟩⟩
                  rw [hfs]
                  simpa using hp2
                · intro _
                  rfl
              · intro doc2 sb2 g hd hsb2 hg
                rw [hparse] at hg
                cases hg
            · have hparse : parse_box_score_page (some doc) =
                  some { away_team := a1, home_team := a2, away_score := v1, home_score := v2,
                         players := ((doc.tables.filter isBasicTable).map tablePlayers).flatten } := by
                simp [parse_box_score_page, hsb, htn, hfs, hp1, hp2]
              refine ⟨?_, ?_⟩
              · rw [hparse]
                constructor
                · intro h
                  cases h
                · intro hR
                  exfalso
                  rcases hR with h | ⟨doc2, hdoc2, hrest⟩
                  · cases h
                  · injection hdoc2 with he
                    subst he
                    rcases hrest with h | ⟨sb2, hsb2, hdisj⟩
                    · rw [hsb] at h
                      cases h
                    · rw [hsb] at hsb2
                      injection hsb2 with he2
                      subst he2
                      rcases hdisj with h | h | h | h
                      · rw [htn] at h
                        simp at h
                      · rw [hfs] at h
                        simp at h
                      · rw [hfs] at h
                        simp [hp1] at h
                      · rw [hfs] at h
                        simp [hp2] at h
              · intro doc2 sb2 g hd hsb2 hg
                injection hd with hde
                subst hde
                rw [hsb] at hsb2
                injection hsb2 with hsbe
                subst hsbe
                rw [hparse] at hg
                injection hg with hge
                subst hge
                refine ⟨?_, ?_, ?_, ?_⟩
                · rw [htn]
                  rfl
                · rw [htn]
                  rfl
                · rw [hfs]
                  exact hp1
                · rw [hfs]
                  exact hp2
        · rw [hfs] at hfslen2
          simp at hfslen2
      · rw [htn] at hlen2
        simp at hlen2

/-- Witness for `parse_box_score_page_reject`: on the sample document the
away fields come from the first extracted item and the home fields from the
second. -/
theorem parse_box_score_page_reject_witness :
    sampleGame.away_team = (teamNamesOf sampleScorebox).getD 0 "" ∧
    sampleGame.home_team = (teamNamesOf sampleScorebox).getD 1 "" ∧
    pyInt ((finalScoresOf sampleScorebox).getD 0 "") = some sampleGame.away_score ∧
    pyInt ((finalScoresOf sampleScorebox).getD 1 "") = some sampleGame.home_score :=
  (parse_box_score_page_reject (some sampleDoc)).2 sampleDoc sampleScorebox sampleGame
    rfl rfl (by decide)

/-- C2: a player row whose minutes cell is missing or holds one of the five
non-participation markers produces no stat line, and every emitted line's
minutes value is present and is no such marker. -/
theorem parse_box_score_page_skips_nonparticipants :
    (∀ (team : String) (r : Row),
        (_get_cell_text r "mp" = none → parseRow team r = none) ∧
        (∀ v, _get_cell_text r "mp" = some v → v ∈ non_playing_statuses →
            parseRow team r = none)) ∧
    (∀ (doc : BoxDoc) (g : GameData), parse_box_score_page (some doc) = some g →
        ∀ p ∈ g.players, p.mp ∉ non_playing_statuses ∧ p.mp ≠ "") := by
  refine ⟨?_, ?_⟩
  · intro team r
    constructor
    · intro hmp
      cases hpr : parseRow team r with
      | none => rfl
      | some p =>
        rcases (parseRow_some_iff team r p).mp hpr with ⟨th, pn, mp, _, _, hmp2, _, _⟩
        rw [hmp] at hmp2
        cases hmp2
    · intro v hv hst
      cases hpr : parseRow team r with
      | none => rfl
      | some p =>
        rcases (parseRow_some_iff team r p).mp hpr with ⟨th, pn, mp, _, _, hmp2, hnst, _⟩
        rw [hv] at hmp2
        injection hmp2 with he
        exact absurd (Or.inl (he ▸ hst)) hnst
  · intro doc g hg p hp
    rcases mem_players_origin doc g p hg hp with ⟨t, tid, rows, r, _, _, _, _, _, _, hpr⟩
    rcases (parseRow_some_iff _ r p).mp hpr with ⟨th, pn, mp, _, _, _, hnst, hpe⟩
    subst hpe
    push_neg at hnst
    exact ⟨hnst.1, hnst.2⟩

/-- Witness for `parse_box_score_page_skips_nonparticipants`: the row whose
minutes cell reads `Did Not Play` is skipped. -/
theorem parse_box_score_page_skips_nonparticipants_witness :
    parseRow "PHI" dnpRow = none :=
  (parse_box_score_page_skips_nonparticipants.1 "PHI" dnpRow).2 "Did Not Play"
    (by decide) (by decide)

/-- C6: every numeric stat field of an emitted line is the lenient parse of
its cell; a missing cell or one whose stripped text is empty yields an
absent value (never zero), and unparseable content yields an absent value
rather than an error (the accompanying diagnostic is logging, outside this
model). -/
theorem parse_box_score_page_lenient_fields :
    (∀ (team : String) (r : Row) (p : PlayerRow), parseRow team r = some p →
        p.fg = _to_int (_get_cell_text r "fg") ∧
        p.fga = _to_int (_get_cell_text r "fga") ∧
        p.fg3 = _to_int (_get_cell_text r "fg3") ∧
        p.fg3a = _to_int (_get_cell_text r "fg3a") ∧
        p.ft = _to_int (_get_cell_text r "ft") ∧
        p.fta = _to_int (_get_cell_text r "fta") ∧
        p.orb = _to_int (_get_cell_text r "orb") ∧
        p.drb = _to_int (_get_cell_text r "drb") ∧
        p.trb = _to_int (_get_cell_text r "trb") ∧
        p.ast = _to_int (_get_cell_text r "ast") ∧
        p.stl = _to_int (_get_cell_text r "stl") ∧
        p.blk = _to_int (_get_cell_text r "blk") ∧
        p.tov = _to_int (_get_cell_text r "tov") ∧
        p.pf = _to_int (_get_cell_text r "pf") ∧
        p.pts = _to_int (_get_cell_text r "pts") ∧
        p.fg_pct = _to_real (_get_cell_text r "fg_pct") ∧
        p.fg3_pct = _to_real (_get_cell_text r "fg3_pct") ∧
        p.ft_pct = _to_real (_get_cell_text r "ft_pct")) ∧
    (∀ (r : Row) (stat : String), findCell r stat = none → _get_cell_text r stat = none) ∧
    (∀ (r : Row) (stat : String) (c : Cell), findCell r stat = some c →
        pyStripS c.text = "" → _get_cell_text r stat = none) ∧
    _to_int none = none ∧ _to_real none = none ∧
    (∀ v, pyInt v = none → _to_int (some v) = none) ∧
    (∀ v, pyFloat v = none → _to_real (some v) = none) := by
  refine ⟨?_, ?_, ?_, rfl, rfl, ?_, ?_⟩
  · intro team r p h
    obtain ⟨_, _, _, e1, e2, e3, e4, e5, e6, e7, e8, e9, e10, e11, e12, e13, e14, e15,
      e16, e17, e18, _⟩ := parseRow_fields team r p h
    exact ⟨e1, e2, e3, e4, e5, e6, e7, e8, e9, e10, e11, e12, e13, e14, e15, e16, e17, e18⟩
  · intro r stat h
    unfold _get_cell_text
    rw [h]
  · intro r stat c h he
    simp only [_get_cell_text, h]
    rw [if_pos he]
  · intro v hv
    simp only [_to_int]
    by_cases he : v = ""
    · rw [if_pos he]
    · rw [if_neg he]
      exact hv
  · intro v hv
    simp only [_to_real]
    by_cases he : v = ""
    · rw [if_pos he]
    · rw [if_neg he]
      exact hv

/-- Witness for `parse_box_score_page_lenient_fields`: the line emitted for
the row with empty and missing stat cells has an absent field-goal count. -/
theorem parse_box_score_page_lenient_fields_witness :
    emptyStatsLine.fg = _to_int (_get_cell_text emptyStatsRow "fg") :=
  (parse_box_score_page_lenient_fields.1 "PHI" emptyStatsRow emptyStatsLine (by decide)).1

/-- C9 counterexample: a basic-table row whose `fg` cell reads `-5` and
whose `fg_pct` cell reads `1.5` is emitted with a negative count stat and a
percentage above one, refuting the claimed non-negativity and the claimed
containment in the unit interval. -/
theorem stat_ranges_counterexample :
    parse_box_score_page (some negStatDoc) =
      some { away_team := "Philadelphia 76ers", home_team := "Milwaukee Bucks"
             away_score := 117, home_score := 118, players := [negStatLine] } ∧
    negStatLine.fg = some (-5) ∧ (-5 : Int) < 0 ∧
    negStatLine.fg_pct = some (mkRat 3 2) ∧ ¬ (mkRat 3 2 ≤ 1) := by decide

/-- C9 amended: each of the fifteen count stats of an emitted line is the
lenient integer parse of its cell (an integer or absent, with no
non-negativity check: a negative value can only come from a minus-signed
cell), and each of the three percentage stats is the lenient decimal parse
of its cell (a rational or absent, with no containment check for the unit
interval). -/
theorem stat_ranges_amended :
    ∀ (team : String) (r : Row) (p : PlayerRow), parseRow team r = some p →
      (p.fg = _to_int (_get_cell_text r "fg") ∧
       p.fga = _to_int (_get_cell_text r "fga") ∧
       p.fg3 = _to_int (_get_cell_text r "fg3") ∧
       p.fg3a = _to_int (_get_cell_text r "fg3a") ∧
       p.ft = _to_int (_get_cell_text r "ft") ∧
       p.fta = _to_int (_get_cell_text r "fta") ∧
       p.orb = _to_int (_get_cell_text r "orb") ∧
       p.drb = _to_int (_get_cell_text r "drb") ∧
       p.trb = _to_int (_get_cell_text r "trb") ∧
       p.ast = _to_int (_get_cell_text r "ast") ∧
       p.stl = _to_int (_get_cell_text r "stl") ∧
       p.blk = _to_int (_get_cell_text r "blk") ∧
       p.tov = _to_int (_get_cell_text r "tov") ∧
       p.pf = _to_int (_get_cell_text r "pf") ∧
       p.pts = _to_int (_get_cell_text r "pts") ∧
       p.fg_pct = _to_real (_get_cell_text r "fg_pct") ∧
       p.fg3_pct = _to_real (_get_cell_text r "fg3_pct") ∧
       p.ft_pct = _to_real (_get_cell_text r "ft_pct")) ∧
      (∀ stat n, _to_int (_get_cell_text r stat) = some n → n < 0 →
          ∃ v, _get_cell_text r stat = some v ∧ (pyStrip v.toList).head? = some '-') ∧
      (∀ stat q, _to_real (_get_cell_text r stat) = some q →
          ∃ v, _get_cell_text r stat = some v ∧ pyFloat v = some q) := by
  intro team r p h
  refine ⟨?_, ?_, ?_⟩
  · obtain ⟨_, _, _, e1, e2, e3, e4, e5, e6, e7, e8, e9, e10, e11, e12, e13, e14, e15,
      e16, e17, e18, _⟩ := parseRow_fields team r p h
    exact ⟨e1, e2, e3, e4, e5, e6, e7, e8, e9, e10, e11, e12, e13, e14, e15, e16, e17, e18⟩
  · intro stat n hto hneg
    cases hg : _get_cell_text r stat with
    | none =>
      rw [hg] at hto
      cases hto
    | some v =>
      rw [hg] at hto
      simp only [_to_int] at hto
      by_cases he : v = ""
      · rw [if_pos he] at hto
        cases hto
      · rw [if_neg he] at hto
        exact ⟨v, rfl, pyIntList_neg_head v.toList n hto hneg⟩
  · intro stat q hto
    cases hg : _get_cell_text r stat with
    | none =>
      rw [hg] at hto
      cases hto
    | some v =>
      rw [hg] at hto
      simp only [_to_real] at hto
      by_cases he : v = ""
      · rw [if_pos he] at hto
        cases hto
      · rw [if_neg he] at hto
        exact ⟨v, rfl, hto⟩

/-- Witness for `stat_ranges_amended`: the emitted line of the minus-signed
row carries exactly the lenient parse of its `fg` cell. -/
theorem stat_ranges_amended_witness :
    negStatLine.fg = _to_int (_get_cell_text negStatRow "fg") :=
  ((stat_ranges_amended "PHI" negStatRow negStatLine (by decide)).1).1

/-- C10 counterexample: on a table whose id is `box-MIL-game-basic` (the
four-segment shape of the source site, also used by the repository's own
test fixture) the emitted team is `MIL`, the second hyphen-delimited
segment, while the text between the `box-` prefix and the `-basic` suffix
is `MIL-game`. -/
theorem team_segment_counterexample :
    (parse_box_score_page (some gameIdDoc)).map (fun g => g.players.map (fun p => p.team)) =
      some ["MIL"] ∧
    specTeamSegment "box-MIL-game-basic" = "MIL-game" ∧
    ("MIL" : String) ≠ "MIL-game" := by decide

/-- C10 amended: a row whose player header has no anchor (such as the
`Reserves` and `Team Totals` dividers) never produces a stat line, and every
emitted line takes its player name from the header anchor text and its team
from `split("-")[1]` of the owning table's id (the first hyphen-delimited
segment after `box-`), so each line is associated to exactly the team whose
table contained it. -/
theorem team_segment_amended :
    (∀ (team : String) (r : Row),
        (r.playerTh = none → parseRow team r = none) ∧
        (∀ th, r.playerTh = some th → th.a = none → parseRow team r = none)) ∧
    (∀ (doc : BoxDoc) (g : GameData), parse_box_score_page (some doc) = some g →
        ∀ p ∈ g.players, ∃ t tid rows r th,
          t ∈ doc.tables ∧ t.id = some tid ∧
          strStarts tid "box-" = true ∧ strEnds tid "-basic" = true ∧
          t.tbody = some rows ∧ r ∈ rows ∧
          r.playerTh = some th ∧ th.a = some p.player_name ∧
          p.team = teamFromId tid) := by
  refine ⟨?_, ?_⟩
  · intro team r
    constructor
    · intro h
      cases hpr : parseRow team r with
      | none => rfl
      | some p =>
        rcases (parseRow_some_iff team r p).mp hpr with ⟨th, pn, mp, hth, _, _, _, _⟩
        rw [h] at hth
        cases hth
    · intro th hth ha
      cases hpr : parseRow team r with
      | none => rfl
      | some p =>
        rcases (parseRow_some_iff team r p).mp hpr with ⟨th2, pn, mp, hth2, ha2, _, _, _⟩
        rw [hth] at hth2
        injection hth2 with he
        subst he
        rw [ha] at ha2
        cases ha2
  · intro doc g hg p hp
    rcases mem_players_origin doc g p hg hp with ⟨t, tid, rows, r, ht, hid, hpre, hsuf, htb, hr, hpr⟩
    rcases (parseRow_some_iff _ r p).mp hpr with ⟨th, pn, mp, hth, ha, hmp, hnst, hpe⟩
    subst hpe
    exact ⟨t, tid, rows, r, th, ht, hid, hpre, hsuf, htb, hr, hth, ha, rfl⟩

/-- Witness for `team_segment_amended`: the `Reserves` divider row, whose
header has no anchor, produces no stat line. -/
theorem team_segment_amended_witness : parseRow "MIL" reservesRow = none :=
  (team_segment_amended.1 "MIL" reservesRow).2 { a := none, text := "Reserves" } rfl rfl
